import Mathlib

/-!
Verification of the authorization core of the Category RBAC backend.

The embedding below translates, function by function, the Python sources:
`config.py` (constant tables), `auth/decorators.py` (guard decorators),
`auth/auth_handler.py` (principal resolution), `auth/models.py`
(`UserRepository`), `users/services.py` (`UserService`) and
`users/routes.py` (the users list route).

Python dictionaries keyed by strings are embedded as association lists with
a first-match lookup (`dictGet`), which matches `dict.get(key, default)`
since all the embedded dictionaries have pairwise distinct keys.  The user
store (`UserRepository.users`) is threaded explicitly: every mutating
operation returns its result together with the resulting store.  The wall
clock (`datetime.now().isoformat()`) is an input `now`; SHA-256 is an
external primitive whose only property used by the code is equality of
digests, so it is embedded as an injective tagging function.
-/

set_option maxRecDepth 4096

/-- `d.get(k, dflt)` on a Python dict embedded as an association list. -/
def dictGet {α : Type} (d : List (String × α)) (k : String) (dflt : α) : α :=
  match d with
  | [] => dflt
  | (k2, v) :: rest => if k2 == k then v else dictGet rest k dflt

/-- `config.py` — `Config.ROLES`: per-role feature-permission flags. -/
def ROLES : List (String × List (String × Bool)) :=
  [ ("super_admin",
      [ ("can_manage_users", true), ("can_manage_admins", true),
        ("can_manage_categories", true), ("can_manage_audiences", true),
        ("can_view_analytics", true) ]),
    ("admin",
      [ ("can_manage_users", true), ("can_manage_admins", false),
        ("can_manage_categories", false), ("can_manage_audiences", true),
        ("can_view_analytics", true) ]),
    ("emp",
      [ ("can_manage_users", false), ("can_manage_admins", false),
        ("can_manage_categories", false), ("can_manage_audiences", false),
        ("can_view_analytics", false) ]) ]

/-- `config.py` — `Config.RBAC_MATRIX`: requester role → target role → allowed actions. -/
def RBAC_MATRIX : List (String × List (String × List String)) :=
  [ ("super_admin",
      [ ("super_admin", ["view"]),
        ("admin", ["create", "view", "update", "delete", "change_password"]),
        ("emp", ["create", "view", "update", "delete", "change_password"]) ]),
    ("admin",
      [ ("super_admin", []),
        ("admin", []),
        ("emp", ["create", "view", "update", "delete", "change_password"]) ]),
    ("emp",
      [ ("super_admin", []),
        ("admin", []),
        ("emp", []) ]) ]

/-- The two-level lookup `rbac_matrix.get(requester_role, {}).get(target_role, [])`
used verbatim in `check_rbac_permission`, `validate_role_permission` and the
`UserService` methods. -/
def allowed_actions (requester_role target_role : String) : List String :=
  dictGet (dictGet RBAC_MATRIX requester_role []) target_role []

/-- `is_allowed(requester, target, action)`: the membership test
`action in allowed_actions` performed by every matrix consumer. -/
def is_allowed (requester_role target_role action : String) : Bool :=
  (allowed_actions requester_role target_role).contains action

/-- `check_permission`'s flag lookup:
`roles.get(current_user.role, {}).get(permission, False)`. -/
def has_flag (role flag : String) : Bool :=
  dictGet (dictGet ROLES role []) flag false

/-- `require_role_hierarchy`'s `role_hierarchy` table in `auth/decorators.py`. -/
def role_hierarchy : List (String × Int) :=
  [("emp", 0), ("admin", 1), ("super_admin", 2)]

/-- `role_hierarchy.get(current_user.role, -1)`. -/
def userRoleLevel (role : String) : Int :=
  dictGet role_hierarchy role (-1)

/-- `role_hierarchy.get(min_role, 999)`. -/
def requiredLevel (min_role : String) : Int :=
  dictGet role_hierarchy min_role 999

/-- `require_role_hierarchy` passes iff `user_role_level >= required_level`. -/
def meets_minimum (role min_role : String) : Bool :=
  decide (userRoleLevel role ≥ requiredLevel min_role)

/-- `auth/models.py` — the fields of a stored user record (`User.to_dict`).
`created_by` and `last_login` may be Python `None`. -/
structure UserRec where
  user_id : String
  username : String
  email : String
  password_hash : String
  role : String
  created_by : Option String
  status : String
  created_at : String
  updated_at : String
  last_login : Option String
deriving DecidableEq, Repr

/-- `UserService._remove_sensitive_data`'s output shape: the safe projection
of a record (no `password_hash`, no `updated_at`). -/
structure SafeUser where
  user_id : String
  username : String
  email : String
  role : String
  created_by : Option String
  status : String
  created_at : String
  last_login : Option String
deriving DecidableEq, Repr

/-- `UserRepository.users`: the JSON store, a dict from user id to record.
Embedded as an association list in iteration order. -/
def Store : Type := List (String × UserRec)

/-- `UserRepository.find_by_id`: `self.users.get(user_id)`. -/
def find_by_id (store : Store) (user_id : String) : Option UserRec :=
  match store with
  | [] => none
  | (k, u) :: rest => if k == user_id then some u else find_by_id rest user_id

/-- `self.users[user_id] = u` for a key already present in the dict. -/
def setUser (store : Store) (user_id : String) (u : UserRec) : Store :=
  match store with
  | [] => []
  | (k, v) :: rest =>
      if k == user_id then (k, u) :: rest else (k, v) :: setUser rest user_id u

/-- `User.hash_password` — SHA-256 is an external primitive; the code only
compares digests for equality, so an injective tagging embeds it. -/
def hash_password (password : String) : String :=
  "sha256$" ++ password

/-- `UserRepository.verify_password`:
`user.password_hash == User.hash_password(password)`. -/
def verify_password (u : UserRec) (password : String) : Bool :=
  u.password_hash == hash_password password

/-- `UserService._remove_sensitive_data`. -/
def remove_sensitive_data (u : UserRec) : SafeUser :=
  { user_id := u.user_id, username := u.username, email := u.email,
    role := u.role, created_by := u.created_by, status := u.status,
    created_at := u.created_at, last_login := u.last_login }

/-- Outcome of one guard decorator: pass through to the handler, or
short-circuit with an HTTP status and message. -/
inductive GuardResult where
  | ok
  | denied (status : Nat) (message : String)
deriving DecidableEq, Repr

/-- `auth/auth_handler.py` — `AuthHandler.get_current_user`, after the JWT
collaborator has decoded the token to a claimed `user_id`. -/
def get_current_user (store : Store) (payload_user_id : String) :
    Option UserRec × Option String :=
  match find_by_id store payload_user_id with
  | none => (none, some "User not found")
  | some user =>
      if user.status != "active" then (none, some "User account is disabled")
      else (some user, none)

/-- `auth/decorators.py` — `require_auth`, with the token-decode collaborator
summarised as `decoded_uid` (`none` when the header is missing or the token
fails verification; both paths return 401 before the store is consulted). -/
def require_auth_outcome (store : Store) (decoded_uid : Option String) :
    Except (Nat × String) UserRec :=
  match decoded_uid with
  | none => .error (401, "Authentication token is required")
  | some uid =>
      match get_current_user store uid with
      | (_, some err) => .error (401, err)
      | (some user, none) => .ok user
      | (none, none) => .error (401, "User not found")

/-- `auth/decorators.py` — `check_rbac_permission(action)`: the matrix-action
guard body, given the injected `current_user` and `target_user` kwargs. -/
def check_rbac_permission (action : String)
    (current_user target_user : Option UserRec) : GuardResult :=
  match current_user with
  | none => .denied 401 "Authentication required"
  | some cu =>
      match target_user with
      | none => .denied 404 "Target user not found"
      | some tu =>
          let acts := allowed_actions cu.role tu.role
          if acts.contains action then .ok
          else .denied 403
            ("You do not have permission to " ++ action ++ " "
              ++ tu.role ++ " users")

/-- Outcome of `validate_target_user_access`: the resolved target user is
injected into the handler's kwargs, or the request is denied. -/
inductive TargetResult where
  | ok (target : UserRec)
  | denied (status : Nat) (message : String)
deriving DecidableEq, Repr

/-- `auth/decorators.py` — `validate_target_user_access` for an
authenticated `current_user` and the route parameter `user_id`. -/
def validate_target_user_access (current_user : UserRec) (user_id : String)
    (store : Store) : TargetResult :=
  if user_id == "" then .denied 400 "User ID is required"
  else
    match find_by_id store user_id with
    | none => .denied 404 "User not found"
    | some target_user =>
        if user_id == current_user.user_id then .ok target_user
        else if current_user.role == "emp" then .denied 403 "Access denied"
        else if current_user.role == "admin" && target_user.role != "emp" then
          .denied 403 "Cannot access users of this role"
        else if current_user.role == "super_admin"
            && target_user.role == "super_admin" then
          .denied 403 "Cannot access other super admins"
        else .ok target_user

/-- `auth/decorators.py` — `require_role_hierarchy(min_role)` for an
authenticated `current_user`. -/
def require_role_hierarchy (min_role : String) (current_user : UserRec) :
    GuardResult :=
  if userRoleLevel current_user.role < requiredLevel min_role then
    .denied 403 ("Access denied. Minimum role required: " ++ min_role)
  else .ok

/-- `auth/decorators.py` — `check_permission(permission)` for an
authenticated `current_user`. -/
def check_permission (permission : String) (current_user : UserRec) :
    GuardResult :=
  if has_flag current_user.role permission then .ok
  else .denied 403 ("Permission denied: " ++ permission)

/-- `auth/models.py` — `UserRepository.get_all_users`. -/
def repo_get_all_users (store : Store) (requester_role : String) :
    List UserRec :=
  if requester_role == "super_admin" then store.map (fun p => p.2)
  else if requester_role == "admin" then
    (store.map (fun p => p.2)).filter (fun u => u.role == "emp")
  else []

/-- `auth/models.py` — `UserRepository.update_user_status`.  The wall clock
is the explicit input `now`; the resulting store is returned. -/
def repo_update_user_status (store : Store)
    (user_id status requester_role requester_id now : String) :
    (Bool × String) × Store :=
  match find_by_id store user_id with
  | none => ((false, "User not found"), store)
  | some target_user =>
      if requester_role == "emp" then
        ((false, "Insufficient permissions"), store)
      else if requester_role == "admin" && target_user.role != "emp" then
        ((false, "Cannot manage users of this role"), store)
      else if requester_role == "super_admin"
          && target_user.role == "super_admin" && user_id != requester_id then
        ((false, "Cannot manage other super admins"), store)
      else
        ((true, "Status updated successfully"),
          setUser store user_id
            { target_user with status := status, updated_at := now })

/-- `users/services.py` — `UserService.get_users_list`: role-based listing
followed by RBAC view filtering and sensitive-data removal. -/
def svc_get_users_list (store : Store) (requester_role : String) :
    List SafeUser :=
  let all_users := repo_get_all_users store requester_role
  let allowed_roles_dict := dictGet RBAC_MATRIX requester_role []
  let viewable_roles := (allowed_roles_dict.filter
      (fun p => p.2.contains "view")).map (fun p => p.1)
  ((all_users.filter (fun u => viewable_roles.contains u.role)).map
    remove_sensitive_data)

/-- `users/services.py` — `UserService.get_user_by_id`. -/
def svc_get_user_by_id (store : Store)
    (user_id requester_role requester_id : String) :
    Option SafeUser × Option String :=
  match find_by_id store user_id with
  | none => (none, some "User not found")
  | some user =>
      if user_id == requester_id then (some (remove_sensitive_data user), none)
      else
        let acts := allowed_actions requester_role user.role
        if ¬ acts.contains "view" then (none, some "Access denied")
        else (some (remove_sensitive_data user), none)

/-- `users/services.py` — `UserService.update_user_status`. -/
def svc_update_user_status (store : Store)
    (user_id status requester_role requester_id now : String) :
    (Bool × String) × Store :=
  match find_by_id store user_id with
  | none => ((false, "User not found"), store)
  | some user =>
      if user_id == requester_id then
        ((false, "Cannot change your own status"), store)
      else
        let acts := allowed_actions requester_role user.role
        if ¬ acts.contains "update" then
          ((false, "You do not have permission to update "
              ++ user.role ++ " users"), store)
        else repo_update_user_status store user_id status requester_role
          requester_id now

/-- The field assignment loop in `update_user_profile`; the fields were
validated to lie in `['username', 'email']` before this runs. -/
def apply_profile_updates (u : UserRec) (updates : List (String × String)) :
    UserRec :=
  match updates with
  | [] => u
  | (field, value) :: rest =>
      if field == "username" then
        apply_profile_updates { u with username := value } rest
      else if field == "email" then
        apply_profile_updates { u with email := value } rest
      else apply_profile_updates u rest

/-- `auth/models.py` — `UserRepository.find_by_username` (first match in
iteration order). -/
def find_by_username (store : Store) (username : String) : Option UserRec :=
  match store with
  | [] => none
  | (_, u) :: rest =>
      if u.username == username then some u else find_by_username rest username

/-- `auth/models.py` — `UserRepository.find_by_email`. -/
def find_by_email (store : Store) (email : String) : Option UserRec :=
  match store with
  | [] => none
  | (_, u) :: rest =>
      if u.email == email then some u else find_by_email rest email

/-- `updates.get(field)` on the route-filtered updates dict. -/
def updatesGet (updates : List (String × String)) (field : String) :
    Option String :=
  match updates with
  | [] => none
  | (k, v) :: rest => if k == field then some v else updatesGet rest field

/-- `users/services.py` — `UserService.update_user_profile`. -/
def svc_update_user_profile (store : Store) (user_id : String)
    (updates : List (String × String)) (requester_role requester_id now : String) :
    (Option SafeUser × Option String) × Store :=
  match find_by_id store user_id with
  | none => ((none, some "User not found"), store)
  | some user =>
      let permission_error : Option String :=
        if user_id == requester_id then none
        else
          let acts := allowed_actions requester_role user.role
          if ¬ acts.contains "update" then
            some ("You do not have permission to update "
              ++ user.role ++ " users")
          else none
      match permission_error with
      | some e => ((none, some e), store)
      | none =>
          if ¬ (updates.all (fun p => p.1 == "username" || p.1 == "email")) then
            ((none, some "Cannot update field"), store)
          else
            let username_clash : Bool :=
              match updatesGet updates "username" with
              | none => false
              | some v =>
                  if v != user.username then
                    match find_by_username store v with
                    | none => false
                    | some existing => existing.user_id != user_id
                  else false
            if username_clash then
              ((none, some "Username already exists"), store)
            else
              let email_clash : Bool :=
                match updatesGet updates "email" with
                | none => false
                | some v =>
                    if v != user.email then
                      match find_by_email store v with
                      | none => false
                      | some existing => existing.user_id != user_id
                    else false
              if email_clash then
                ((none, some "Email already exists"), store)
              else
                let updated :=
                  { apply_profile_updates user updates with updated_at := now }
                ((some (remove_sensitive_data updated), none),
                  setUser store user_id updated)

/-- `users/services.py` — `UserService.update_password`. -/
def svc_update_password (store : Store)
    (user_id old_password new_password requester_role requester_id now : String) :
    (Bool × String) × Store :=
  match find_by_id store user_id with
  | none => ((false, "User not found"), store)
  | some user =>
      let permission_error : Option String :=
        if user_id == requester_id then
          if ¬ verify_password user old_password then
            some "Current password is incorrect"
          else none
        else
          let acts := allowed_actions requester_role user.role
          if ¬ acts.contains "change_password" then
            some ("You do not have permission to change passwords for "
              ++ user.role ++ " users")
          else none
      match permission_error with
      | some e => ((false, e), store)
      | none =>
          if new_password.length < 6 then
            ((false, "Password must be at least 6 characters"), store)
          else
            ((true, "Password updated successfully"),
              setUser store user_id
                { user with password_hash := hash_password new_password,
                            updated_at := now })

/-- `users/services.py` — `UserService.delete_user` (soft delete). -/
def svc_delete_user (store : Store)
    (user_id requester_role requester_id now : String) :
    (Bool × String) × Store :=
  match find_by_id store user_id with
  | none => ((false, "User not found"), store)
  | some user =>
      if user_id == requester_id then
        ((false, "Cannot delete your own account"), store)
      else
        let acts := allowed_actions requester_role user.role
        if ¬ acts.contains "delete" then
          ((false, "You do not have permission to delete "
              ++ user.role ++ " users"), store)
        else
          ((true, "User deleted successfully"),
            setUser store user_id
              { user with status := "inactive", updated_at := now })

/-- `users/services.py` — `UserService.validate_role_permission`. -/
def validate_role_permission (requester_role target_role action : String) :
    Bool × String :=
  let acts := allowed_actions requester_role target_role
  if acts.contains action then
    (true, "Action allowed on " ++ target_role ++ " users")
  else
    (false, "You do not have permission to " ++ action ++ " "
      ++ target_role ++ " users")

/-- Response of the users list route: success with a JSON user list, or a
short-circuited denial. -/
inductive RouteResult where
  | success (users : List SafeUser)
  | denied (status : Nat) (message : String)
deriving DecidableEq, Repr

/-- `users/routes.py` — the `GET /api/users/` handler `get_all_users` for an
authenticated `current_user` and no query filters.  The route carries only
`require_auth`; there is no role guard before the service call. -/
def route_get_all_users (store : Store) (current_user : UserRec) :
    RouteResult :=
  .success (svc_get_users_list store current_user.role)

/-! ### Helper lemmas about the dictionary lookups -/

theorem dictGet_nil {α : Type} (k : String) (d : α) : dictGet [] k d = d := rfl

theorem dictGet_cons {α : Type} (k2 : String) (v : α) (rest : List (String × α))
    (k : String) (d : α) :
    dictGet ((k2, v) :: rest) k d = if k2 = k then v else dictGet rest k d := by
  simp [dictGet]

theorem dictGet_none {α : Type} (d : List (String × α)) (k : String) (dflt : α)
    (h : ∀ p ∈ d, p.1 ≠ k) : dictGet d k dflt = dflt := by
  induction d with
  | nil => rfl
  | cons p rest ih =>
      rw [show p = (p.1, p.2) from rfl, dictGet_cons, if_neg (h p (by simp))]
      exact ih (fun q hq => h q (by simp [hq]))

/-- Every entry of the RBAC matrix is one of three concrete action lists. -/
theorem allowed_actions_cases (r t : String) :
    allowed_actions r t = [] ∨ allowed_actions r t = ["view"] ∨
    allowed_actions r t
      = ["create", "view", "update", "delete", "change_password"] := by
  unfold allowed_actions RBAC_MATRIX
  simp only [dictGet_cons, dictGet_nil]
  split_ifs <;> simp only [dictGet_cons, dictGet_nil] <;>
    first
      | (split_ifs <;> simp)
      | simp

theorem allowed_actions_unknown_requester (r t : String)
    (h1 : r ≠ "emp") (h2 : r ≠ "admin") (h3 : r ≠ "super_admin") :
    allowed_actions r t = [] := by
  unfold allowed_actions
  rw [dictGet_none RBAC_MATRIX r []]
  · rfl
  · intro p hp
    simp only [RBAC_MATRIX, List.mem_cons, List.not_mem_nil, or_false] at hp
    rcases hp with h | h | h <;>
      (subst h; simp [Ne.symm h1, Ne.symm h2, Ne.symm h3])

theorem allowed_actions_unknown_target (r t : String)
    (h1 : t ≠ "emp") (h2 : t ≠ "admin") (h3 : t ≠ "super_admin") :
    allowed_actions r t = [] := by
  unfold allowed_actions RBAC_MATRIX
  simp only [dictGet_cons, dictGet_nil]
  split_ifs <;>
    (apply dictGet_none) <;>
    intro p hp <;>
    simp only [List.mem_cons, List.not_mem_nil, or_false] at hp <;>
    rcases hp with h | h | h <;>
    (subst h; simp [Ne.symm h1, Ne.symm h2, Ne.symm h3])

/-- Whatever the requester role, the matrix grants at most `view` on a
`super_admin` target. -/
theorem allowed_actions_to_super_admin (r a : String)
    (h : a ∈ allowed_actions r "super_admin") : a = "view" := by
  rcases allowed_actions_cases r "super_admin" with heq | heq | heq
  · rw [heq] at h; simp at h
  · rw [heq] at h; simpa using h
  · exfalso
    have : allowed_actions r "super_admin" ≠
        ["create", "view", "update", "delete", "change_password"] := by
      unfold allowed_actions RBAC_MATRIX
      simp only [dictGet_cons, dictGet_nil]
      split_ifs <;> simp [dictGet_cons, dictGet_nil]
    exact this heq

theorem requiredLevel_nonneg (m : String) : 0 ≤ requiredLevel m := by
  unfold requiredLevel role_hierarchy
  simp only [dictGet_cons, dictGet_nil]
  split_ifs <;> norm_num

theorem userRoleLevel_unknown (r : String)
    (h1 : r ≠ "emp") (h2 : r ≠ "admin") (h3 : r ≠ "super_admin") :
    userRoleLevel r = -1 := by
  unfold userRoleLevel
  rw [dictGet_none role_hierarchy r (-1)]
  intro p hp
  simp only [role_hierarchy, List.mem_cons, List.not_mem_nil, or_false] at hp
  rcases hp with h | h | h <;>
    (subst h; simp [Ne.symm h1, Ne.symm h2, Ne.symm h3])

/-- C1: the RBAC matrix lookup realises exactly the canonical 3×3 table:
`emp` maps every target to the empty set; `admin` maps `emp` to the five
actions and both admin-level targets to the empty set; `super_admin` maps
`emp` and `admin` to the five actions and `super_admin` to `{view}`. -/
theorem rbac_matrix_matches_canonical_table :
    allowed_actions "emp" "emp" = [] ∧
    allowed_actions "emp" "admin" = [] ∧
    allowed_actions "emp" "super_admin" = [] ∧
    allowed_actions "admin" "emp"
      = ["create", "view", "update", "delete", "change_password"] ∧
    allowed_actions "admin" "admin" = [] ∧
    allowed_actions "admin" "super_admin" = [] ∧
    allowed_actions "super_admin" "emp"
      = ["create", "view", "update", "delete", "change_password"] ∧
    allowed_actions "super_admin" "admin"
      = ["create", "view", "update", "delete", "change_password"] ∧
    allowed_actions "super_admin" "super_admin" = ["view"] := by
  decide

/-! ### Demo records used by witnesses -/

/-- A concrete super_admin record. -/
def demoSuperAdmin : UserRec :=
  { user_id := "user_sa1", username := "root", email := "sa@example.com",
    password_hash := hash_password "rootpass", role := "super_admin",
    created_by := none, status := "active", created_at := "t0",
    updated_at := "t0", last_login := none }

/-- A second concrete super_admin record. -/
def demoSuperAdmin2 : UserRec :=
  { user_id := "user_sa2", username := "root2", email := "sa2@example.com",
    password_hash := hash_password "rootpass2", role := "super_admin",
    created_by := some "user_sa1", status := "active", created_at := "t0",
    updated_at := "t0", last_login := none }

/-- A concrete admin record. -/
def demoAdmin : UserRec :=
  { user_id := "user_ad1", username := "alice", email := "alice@example.com",
    password_hash := hash_password "alicepass", role := "admin",
    created_by := some "user_sa1", status := "active", created_at := "t0",
    updated_at := "t0", last_login := none }

/-- A concrete employee record. -/
def demoEmp : UserRec :=
  { user_id := "user_em1", username := "bob", email := "bob@example.com",
    password_hash := hash_password "bobpass", role := "emp",
    created_by := some "user_ad1", status := "active", created_at := "t0",
    updated_at := "t0", last_login := none }

/-- A concrete record with status inactive. -/
def demoInactive : UserRec :=
  { user_id := "user_in1", username := "carol", email := "carol@example.com",
    password_hash := hash_password "carolpass", role := "admin",
    created_by := some "user_sa1", status := "inactive", created_at := "t0",
    updated_at := "t0", last_login := none }

/-- A concrete record carrying an unrecognized role string. -/
def demoBogus : UserRec :=
  { user_id := "user_bg1", username := "mallory", email := "m@example.com",
    password_hash := hash_password "mpass", role := "bogus_role",
    created_by := none, status := "active", created_at := "t0",
    updated_at := "t0", last_login := none }

/-- A concrete user store holding all the demo records. -/
def demoStore : Store :=
  [ ("user_sa1", demoSuperAdmin), ("user_sa2", demoSuperAdmin2),
    ("user_ad1", demoAdmin), ("user_em1", demoEmp),
    ("user_in1", demoInactive), ("user_bg1", demoBogus) ]

/-- C7: a requester role outside `{emp, admin, super_admin}` never satisfies
any minimum-role check: `meets_minimum` is false and the
`require_role_hierarchy` guard denies, whatever the minimum role. -/
theorem unknown_role_never_meets_minimum (role min_role : String) (cu : UserRec)
    (h1 : role ≠ "emp") (h2 : role ≠ "admin") (h3 : role ≠ "super_admin")
    (hcu : cu.role = role) :
    meets_minimum role min_role = false ∧
    require_role_hierarchy min_role cu =
      .denied 403 ("Access denied. Minimum role required: " ++ min_role) := by
  have hlvl : userRoleLevel role = -1 := userRoleLevel_unknown role h1 h2 h3
  have hreq : 0 ≤ requiredLevel min_role := requiredLevel_nonneg min_role
  constructor
  · unfold meets_minimum
    rw [hlvl]
    simp only [ge_iff_le, decide_eq_false_iff_not, not_le]
    omega
  · unfold require_role_hierarchy
    rw [hcu, hlvl, if_pos]
    omega

/-- Witness for C7 at the concrete inputs of the spec's test property. -/
theorem unknown_role_never_meets_minimum_witness :
    meets_minimum "bogus_role" "emp" = false ∧
    require_role_hierarchy "emp" demoBogus =
      .denied 403 ("Access denied. Minimum role required: " ++ "emp") :=
  unknown_role_never_meets_minimum "bogus_role" "emp" demoBogus
    (by decide) (by decide) (by decide) rfl

/-- C8: the matrix evaluator fails closed: an unknown requester role or an
unknown target role yields the empty action set, and an action outside the
closed action set is never allowed — in each case evaluation returns a
denial value rather than an error. -/
theorem rbac_matrix_fails_closed (r t a : String) :
    ((r ≠ "emp" ∧ r ≠ "admin" ∧ r ≠ "super_admin") →
      allowed_actions r t = []) ∧
    ((t ≠ "emp" ∧ t ≠ "admin" ∧ t ≠ "super_admin") →
      allowed_actions r t = []) ∧
    (a ∉ (["create", "view", "update", "delete", "change_password"] :
        List String) →
      is_allowed r t a = false ∧
      validate_role_permission r t a =
        (false, "You do not have permission to " ++ a ++ " " ++ t
          ++ " users")) := by
  refine ⟨fun ⟨h1, h2, h3⟩ => allowed_actions_unknown_requester r t h1 h2 h3,
    fun ⟨h1, h2, h3⟩ => allowed_actions_unknown_target r t h1 h2 h3, ?_⟩
  intro hmem
  simp only [List.mem_cons, List.not_mem_nil, or_false, not_or] at hmem
  obtain ⟨n1, n2, n3, n4, n5⟩ := hmem
  have hmem2 : a ∉ allowed_actions r t := by
    rcases allowed_actions_cases r t with h | h | h <;> rw [h] <;>
      simp [n1, n2, n3, n4, n5]
  have hnc : (allowed_actions r t).contains a = false := by
    simp [hmem2]
  refine ⟨hnc, ?_⟩
  simp [validate_role_permission, hnc, hmem2]

/-- Witness for C8 at concrete unknown roles and an unknown action. -/
theorem rbac_matrix_fails_closed_witness :
    allowed_actions "bogus_role" "emp" = [] ∧
    allowed_actions "admin" "ghost" = [] ∧
    is_allowed "super_admin" "emp" "execute" = false := by
  refine ⟨?_, ?_, ?_⟩
  · exact (rbac_matrix_fails_closed "bogus_role" "emp" "view").1
      ⟨by decide, by decide, by decide⟩
  · exact (rbac_matrix_fails_closed "admin" "ghost" "view").2.1
      ⟨by decide, by decide, by decide⟩
  · exact ((rbac_matrix_fails_closed "super_admin" "emp" "execute").2.2
      (by decide)).1

/-- C9: the permission-flag check fails closed — a role absent from the
flags table or a flag absent from the role's entry yields `false` — and on
the 15 role/flag pairs present in the table it returns exactly the
table's constant boolean. -/
theorem has_flag_fails_closed_and_matches_table (role flag : String) :
    ((role ≠ "emp" ∧ role ≠ "admin" ∧ role ≠ "super_admin") →
      has_flag role flag = false) ∧
    ((flag ≠ "can_manage_users" ∧ flag ≠ "can_manage_admins" ∧
      flag ≠ "can_manage_categories" ∧ flag ≠ "can_manage_audiences" ∧
      flag ≠ "can_view_analytics") → has_flag role flag = false) ∧
    (has_flag "super_admin" "can_manage_users" = true ∧
     has_flag "super_admin" "can_manage_admins" = true ∧
     has_flag "super_admin" "can_manage_categories" = true ∧
     has_flag "super_admin" "can_manage_audiences" = true ∧
     has_flag "super_admin" "can_view_analytics" = true ∧
     has_flag "admin" "can_manage_users" = true ∧
     has_flag "admin" "can_manage_admins" = false ∧
     has_flag "admin" "can_manage_categories" = false ∧
     has_flag "admin" "can_manage_audiences" = true ∧
     has_flag "admin" "can_view_analytics" = true ∧
     has_flag "emp" "can_manage_users" = false ∧
     has_flag "emp" "can_manage_admins" = false ∧
     has_flag "emp" "can_manage_categories" = false ∧
     has_flag "emp" "can_manage_audiences" = false ∧
     has_flag "emp" "can_view_analytics" = false) := by
  refine ⟨?_, ?_, by decide⟩
  · intro ⟨h1, h2, h3⟩
    unfold has_flag
    rw [dictGet_none ROLES role []]
    · rfl
    · intro p hp
      simp only [ROLES, List.mem_cons, List.not_mem_nil, or_false] at hp
      rcases hp with h | h | h <;>
        (subst h; simp [Ne.symm h1, Ne.symm h2, Ne.symm h3])
  · intro ⟨f1, f2, f3, f4, f5⟩
    unfold has_flag ROLES
    simp only [dictGet_cons, dictGet_nil]
    split_ifs <;>
      first
        | rfl
        | (apply dictGet_none;
           intro p hp;
           simp only [List.mem_cons, List.not_mem_nil, or_false] at hp;
           rcases hp with h | h | h | h | h <;>
             (subst h;
              simp [Ne.symm f1, Ne.symm f2, Ne.symm f3, Ne.symm f4,
                Ne.symm f5]))

/-- Witness for C9 at a concrete unknown role and a concrete unknown flag. -/
theorem has_flag_fails_closed_witness :
    has_flag "bogus_role" "can_manage_users" = false ∧
    has_flag "admin" "can_fly" = false := by
  constructor
  · exact (has_flag_fails_closed_and_matches_table "bogus_role"
      "can_manage_users").1 ⟨by decide, by decide, by decide⟩
  · exact (has_flag_fails_closed_and_matches_table "admin" "can_fly").2.1
      ⟨by decide, by decide, by decide, by decide, by decide⟩

/-- C2 counterexample: `check_rbac_permission` has no self-access
short-circuit.  An admin acting on themself — requester and target are the
same record, so the target's id equals the requester's id — is denied
`update`, because the guard consults only the matrix and `admin→admin` is
empty. -/
theorem check_rbac_permission_denies_admin_self :
    check_rbac_permission "update" (some demoAdmin) (some demoAdmin) =
      .denied 403 "You do not have permission to update admin users" := by
  rfl

/-- C2 amended: the self-access short-circuit is implemented in
`validate_target_user_access` and in the service layer rather than in
`check_rbac_permission`: target resolution grants access whenever the
addressed id equals the requester's own id, before any role or matrix
check; `update_user_profile`'s outcome on a self-targeted request does not
depend on the requester's role (the matrix branch is bypassed); and
`get_user_by_id` on self always returns the record. -/
theorem self_access_short_circuit_location
    (cu : UserRec) (store : Store) (uid : String) (tu : UserRec)
    (updates : List (String × String)) (r1 r2 rid now : String)
    (u : UserRec) :
    (uid ≠ "" → find_by_id store uid = some tu → uid = cu.user_id →
      validate_target_user_access cu uid store = .ok tu) ∧
    (uid = rid →
      svc_update_user_profile store uid updates r1 rid now =
      svc_update_user_profile store uid updates r2 rid now) ∧
    (find_by_id store uid = some u → uid = rid →
      svc_get_user_by_id store uid r1 rid =
        (some (remove_sensitive_data u), none)) := by
  refine ⟨?_, ?_, ?_⟩
  · intro hne hf hself
    unfold validate_target_user_access
    rw [if_neg (by simp [hne]), hf]
    simp [hself]
  · intro hself
    subst hself
    unfold svc_update_user_profile
    cases hf : find_by_id store uid <;> simp
  · intro hf hself
    subst hself
    unfold svc_get_user_by_id
    rw [hf]
    simp

/-- Witness for the amended C2 on concrete self-targeted requests. -/
theorem self_access_short_circuit_location_witness :
    validate_target_user_access demoAdmin "user_ad1" demoStore =
      .ok demoAdmin ∧
    svc_update_user_profile demoStore "user_ad1"
        [("email", "new@example.com")] "admin" "user_ad1" "t1" =
      svc_update_user_profile demoStore "user_ad1"
        [("email", "new@example.com")] "emp" "user_ad1" "t1" ∧
    svc_get_user_by_id demoStore "user_ad1" "admin" "user_ad1" =
      (some (remove_sensitive_data demoAdmin), none) := by
  refine ⟨?_, ?_, ?_⟩
  · exact (self_access_short_circuit_location demoAdmin demoStore "user_ad1"
      demoAdmin [] "x" "y" "z" "n" demoAdmin).1 (by decide) rfl rfl
  · exact (self_access_short_circuit_location demoAdmin demoStore "user_ad1"
      demoAdmin [("email", "new@example.com")] "admin" "emp" "user_ad1" "t1"
      demoAdmin).2.1 rfl
  · exact (self_access_short_circuit_location demoAdmin demoStore "user_ad1"
      demoAdmin [] "admin" "y" "user_ad1" "n" demoAdmin).2.2 rfl rfl

/-- C5: a record whose status is not `active` never authenticates:
principal resolution fails with the disabled-account error and the
authentication decorator turns that into a 401, whatever the record's
role. -/
theorem inactive_record_fails_authentication (store : Store) (uid : String)
    (u : UserRec) (hf : find_by_id store uid = some u)
    (hs : u.status ≠ "active") :
    get_current_user store uid = (none, some "User account is disabled") ∧
    require_auth_outcome store (some uid) =
      .error (401, "User account is disabled") := by
  have h1 : get_current_user store uid =
      (none, some "User account is disabled") := by
    unfold get_current_user
    rw [hf]
    simp [hs]
  refine ⟨h1, ?_⟩
  simp only [require_auth_outcome, h1]

/-- Witness for C5 on the concrete inactive record in the demo store. -/
theorem inactive_record_fails_authentication_witness :
    get_current_user demoStore "user_in1" =
      (none, some "User account is disabled") ∧
    require_auth_outcome demoStore (some "user_in1") =
      .error (401, "User account is disabled") :=
  inactive_record_fails_authentication demoStore "user_in1" demoInactive
    rfl (by decide)

/-- C6 counterexample: the users-list route carries only the authentication
decorator — no role guard.  A concrete `emp` requester is not denied with
`InsufficientRole`: the request succeeds, returning an empty list. -/
theorem emp_users_list_not_denied :
    route_get_all_users demoStore demoEmp = .success [] := by
  rfl

/-- C6 amended: an `emp` requester of the users list is never denied; the
route returns a successful empty list, because the repository listing
returns no rows for an `emp` requester and the matrix leaves `emp` with no
viewable roles. -/
theorem emp_users_list_returns_empty_success (store : Store) (cu : UserRec)
    (h : cu.role = "emp") :
    route_get_all_users store cu = .success [] := by
  unfold route_get_all_users svc_get_users_list repo_get_all_users
  rw [h]
  simp

/-- Witness for the amended C6 on a concrete one-user store. -/
theorem emp_users_list_returns_empty_success_witness :
    route_get_all_users [("user_em1", demoEmp)] demoEmp = .success [] :=
  emp_users_list_returns_empty_success [("user_em1", demoEmp)] demoEmp rfl

/-- On a `super_admin` target the matrix allows nothing beyond `view`. -/
theorem action_not_in_super_admin_entry (r a : String) (ha : a ≠ "view") :
    a ∉ allowed_actions r "super_admin" := fun hm =>
  ha (allowed_actions_to_super_admin r a hm)

/-- C3: no requester — whatever their role string, `super_admin` included —
can mutate a different user whose role is `super_admin`: the matrix grants
at most `view` on a `super_admin` target, and every mutating service
operation (status change, profile update, password change, delete) denies
and leaves the store untouched, as does the repository-level status update
for each recognized requester role. -/
theorem no_mutation_of_another_super_admin
    (store : Store) (uid st r rid now old_pw new_pw r2 a2 : String)
    (updates : List (String × String)) (u : UserRec)
    (hf : find_by_id store uid = some u)
    (hr : u.role = "super_admin") (hne : uid ≠ rid) :
    (a2 ∈ allowed_actions r2 "super_admin" → a2 = "view") ∧
    svc_update_user_status store uid st r rid now =
      ((false, "You do not have permission to update super_admin users"),
        store) ∧
    svc_update_user_profile store uid updates r rid now =
      ((none, some "You do not have permission to update super_admin users"),
        store) ∧
    svc_update_password store uid old_pw new_pw r rid now =
      ((false,
        "You do not have permission to change passwords for super_admin users"),
        store) ∧
    svc_delete_user store uid r rid now =
      ((false, "You do not have permission to delete super_admin users"),
        store) ∧
    ((r = "emp" ∨ r = "admin" ∨ r = "super_admin") →
      (repo_update_user_status store uid st r rid now).1.1 = false ∧
      (repo_update_user_status store uid st r rid now).2 = store) := by
  have hcup := action_not_in_super_admin_entry r "update" (by decide)
  have hcpw := action_not_in_super_admin_entry r "change_password"
    (by decide)
  have hcdel := action_not_in_super_admin_entry r "delete" (by decide)
  refine ⟨allowed_actions_to_super_admin r2 a2, ?_, ?_, ?_, ?_, ?_⟩
  · simp [svc_update_user_status, hf, hne, hr, hcup]
  · simp [svc_update_user_profile, hf, hne, hr, hcup]
  · simp [svc_update_password, hf, hne, hr, hcpw]
  · simp [svc_delete_user, hf, hne, hr, hcdel]
  · rintro (h | h | h) <;> subst h <;>
      simp [repo_update_user_status, hf, hr, hne]

/-- Witness for C3: a second super_admin targeted by the first. -/
theorem no_mutation_of_another_super_admin_witness :
    svc_update_user_status demoStore "user_sa2" "inactive" "super_admin"
        "user_sa1" "t1" =
      ((false, "You do not have permission to update super_admin users"),
        demoStore) ∧
    svc_delete_user demoStore "user_sa2" "super_admin" "user_sa1" "t1" =
      ((false, "You do not have permission to delete super_admin users"),
        demoStore) ∧
    (repo_update_user_status demoStore "user_sa2" "inactive" "super_admin"
        "user_sa1" "t1").2 = demoStore := by
  have h := no_mutation_of_another_super_admin demoStore "user_sa2"
    "inactive" "super_admin" "user_sa1" "t1" "old" "newpass123"
    "super_admin" "view" [] demoSuperAdmin2 rfl rfl (by decide)
  exact ⟨h.2.1, h.2.2.2.2.1, (h.2.2.2.2.2 (by simp)).2⟩

/-- C4: every requester is blocked from changing their own account status
and from deleting their own account — the denial fires before any matrix
consultation and the store is untouched — while the remaining self-access
operations stay allowed: viewing self succeeds, a self profile update
passes the permission layer, and a self password change succeeds given the
correct current password and a long-enough new one. -/
theorem self_status_change_and_delete_denied
    (store : Store) (uid st r now old_pw new_pw : String) (u : UserRec)
    (hf : find_by_id store uid = some u) :
    svc_update_user_status store uid st r uid now =
      ((false, "Cannot change your own status"), store) ∧
    svc_delete_user store uid r uid now =
      ((false, "Cannot delete your own account"), store) ∧
    svc_get_user_by_id store uid r uid =
      (some (remove_sensitive_data u), none) ∧
    (svc_update_user_profile store uid [("username", u.username)]
        r uid now).1.2 = none ∧
    (verify_password u old_pw = true → ¬ new_pw.length < 6 →
      (svc_update_password store uid old_pw new_pw r uid now).1.1
        = true) := by
  refine ⟨?_, ?_, ?_, ?_, ?_⟩
  · simp [svc_update_user_status, hf]
  · simp [svc_delete_user, hf]
  · simp [svc_get_user_by_id, hf]
  · simp [svc_update_user_profile, hf, updatesGet]
  · intro hv h6
    simp [svc_update_password, hf, hv, h6]

/-- Witness for C4: the super_admin acting on their own account. -/
theorem self_status_change_and_delete_denied_witness :
    svc_update_user_status demoStore "user_sa1" "inactive" "super_admin"
        "user_sa1" "t1" =
      ((false, "Cannot change your own status"), demoStore) ∧
    svc_delete_user demoStore "user_sa1" "super_admin" "user_sa1" "t1" =
      ((false, "Cannot delete your own account"), demoStore) ∧
    (svc_update_password demoStore "user_sa1" "rootpass" "newrootpass"
        "super_admin" "user_sa1" "t1").1.1 = true := by
  have h := self_status_change_and_delete_denied demoStore "user_sa1"
    "inactive" "super_admin" "t1" "rootpass" "newrootpass" demoSuperAdmin rfl
  exact ⟨h.1, h.2.1, h.2.2.2.2 (by decide) (by decide)⟩

/-- C10: whenever one of the four user-mutating service operations fails —
target not found, self-modification blocked, permission denied, or
validation failure — the store it returns is exactly the store it was
given: no record is modified on any error path. -/
theorem failed_mutations_leave_store_unchanged
    (store : Store) (uid st r rid now old_pw new_pw : String)
    (updates : List (String × String)) :
    ((svc_update_user_status store uid st r rid now).1.1 = false →
      (svc_update_user_status store uid st r rid now).2 = store) ∧
    ((svc_update_user_profile store uid updates r rid now).1.1 = none →
      (svc_update_user_profile store uid updates r rid now).2 = store) ∧
    ((svc_update_password store uid old_pw new_pw r rid now).1.1 = false →
      (svc_update_password store uid old_pw new_pw r rid now).2 = store) ∧
    ((svc_delete_user store uid r rid now).1.1 = false →
      (svc_delete_user store uid r rid now).2 = store) := by
  refine ⟨?_, ?_, ?_, ?_⟩
  · intro hfail
    unfold svc_update_user_status repo_update_user_status at hfail ⊢
    cases hf : find_by_id store uid <;> simp_all
    split_ifs at hfail ⊢ <;> simp_all
  · intro hfail
    unfold svc_update_user_profile at hfail ⊢
    cases hf : find_by_id store uid <;> simp_all
    split_ifs at hfail ⊢ <;> simp_all
  · intro hfail
    unfold svc_update_password at hfail ⊢
    cases hf : find_by_id store uid <;> simp_all
    split_ifs at hfail ⊢ <;> simp_all
  · intro hfail
    unfold svc_delete_user at hfail ⊢
    cases hf : find_by_id store uid <;> simp_all
    split_ifs at hfail ⊢ <;> simp_all

/-- Witness for C10: one concrete failure of each kind — a matrix denial,
a missing target, a wrong current password, and a self-deletion — each
leaving the demo store unchanged. -/
theorem failed_mutations_leave_store_unchanged_witness :
    (svc_update_user_status demoStore "user_sa2" "inactive" "admin"
      "user_ad1" "t1").2 = demoStore ∧
    (svc_update_user_profile demoStore "user_missing" [] "admin"
      "user_ad1" "t1").2 = demoStore ∧
    (svc_update_password demoStore "user_em1" "wrongpass" "newpassword"
      "emp" "user_em1" "t1").2 = demoStore ∧
    (svc_delete_user demoStore "user_em1" "emp" "user_em1" "t1").2
      = demoStore := by
  refine ⟨?_, ?_, ?_, ?_⟩
  · exact (failed_mutations_leave_store_unchanged demoStore "user_sa2"
      "inactive" "admin" "user_ad1" "t1" "x" "y" []).1 (by rfl)
  · exact (failed_mutations_leave_store_unchanged demoStore "user_missing"
      "inactive" "admin" "user_ad1" "t1" "x" "y" []).2.1 (by rfl)
  · exact (failed_mutations_leave_store_unchanged demoStore "user_em1"
      "inactive" "emp" "user_em1" "t1" "wrongpass" "newpassword" []).2.2.1
      (by rfl)
  · exact (failed_mutations_leave_store_unchanged demoStore "user_em1"
      "inactive" "emp" "user_em1" "t1" "x" "y" []).2.2.2 (by rfl)
